import Mathlib

/-!
Shallow embedding of `src/response_code.rs` from the rust-tss-esapi
repository.  The file models the TSS2 response-code decoder: the bit-field
views over the raw 32-bit code, the decoding into the three-variant
`Tss2ResponseCode` union, the classification into `Tss2ResponseCodeKind`,
the human-readable rendering, and the top-level `Error` sum type.
Machine integers are modelled as `Nat`; the `bitfield!` accessors become
explicit `/`, `%` and `Nat.testBit` arithmetic on the raw value.
-/

/-- Embedding of the `ResponseCode` bitfield struct: a raw 32-bit value with
only the format-selector bit exposed (bit 7). -/
structure ResponseCode where
  raw : Nat
deriving DecidableEq

def ResponseCode.format_selector (rc : ResponseCode) : Bool :=
  Nat.testBit rc.raw 7

/-- Embedding of the `FormatZeroResponseCode` bitfield struct. -/
structure FormatZeroResponseCode where
  raw : Nat
deriving DecidableEq

def FormatZeroResponseCode.error_number (rc : FormatZeroResponseCode) : Nat :=
  rc.raw % 2 ^ 7

def FormatZeroResponseCode.format_selector (rc : FormatZeroResponseCode) : Bool :=
  Nat.testBit rc.raw 7

def FormatZeroResponseCode.version (rc : FormatZeroResponseCode) : Bool :=
  Nat.testBit rc.raw 8

def FormatZeroResponseCode.tcg_vendor_indicator (rc : FormatZeroResponseCode) : Bool :=
  Nat.testBit rc.raw 10

def FormatZeroResponseCode.severity (rc : FormatZeroResponseCode) : Bool :=
  Nat.testBit rc.raw 11

/-- Embedding of the `FormatOneResponseCode` bitfield struct. -/
structure FormatOneResponseCode where
  raw : Nat
deriving DecidableEq

def FormatOneResponseCode.error_number (rc : FormatOneResponseCode) : Nat :=
  rc.raw % 2 ^ 6

def FormatOneResponseCode.parameter (rc : FormatOneResponseCode) : Bool :=
  Nat.testBit rc.raw 6

def FormatOneResponseCode.format_selector (rc : FormatOneResponseCode) : Bool :=
  Nat.testBit rc.raw 7

def FormatOneResponseCode.number (rc : FormatOneResponseCode) : Nat :=
  rc.raw / 2 ^ 8 % 2 ^ 4

/-- Embedding of the `Tss2ResponseCode` enum. -/
inductive Tss2ResponseCode where
  | Success
  | FormatZero (rc : FormatZeroResponseCode)
  | FormatOne (rc : FormatOneResponseCode)
deriving DecidableEq

/-- Embedding of `Tss2ResponseCode::from_tss_rc`. -/
def Tss2ResponseCode.from_tss_rc (response_code : Nat) : Tss2ResponseCode :=
  if response_code = 0 then
    Tss2ResponseCode.Success
  else if (ResponseCode.mk response_code).format_selector then
    Tss2ResponseCode.FormatOne (FormatOneResponseCode.mk response_code)
  else
    Tss2ResponseCode.FormatZero (FormatZeroResponseCode.mk response_code)

/-- Embedding of `Tss2ResponseCode::is_success` (`self == Success`). -/
def Tss2ResponseCode.is_success (c : Tss2ResponseCode) : Bool :=
  decide (c = Tss2ResponseCode.Success)

/-- Embedding of `Tss2ResponseCode::is_warning`. -/
def Tss2ResponseCode.is_warning : Tss2ResponseCode → Bool
  | Tss2ResponseCode.Success => false
  | Tss2ResponseCode.FormatZero rc => rc.severity
  | Tss2ResponseCode.FormatOne _ => false

/-- Embedding of `Tss2ResponseCode::error_number`. -/
def Tss2ResponseCode.error_number : Tss2ResponseCode → Nat
  | Tss2ResponseCode.Success => 0
  | Tss2ResponseCode.FormatZero rc => rc.error_number
  | Tss2ResponseCode.FormatOne rc => rc.error_number

/-- Embedding of `Tss2ResponseCode::get_associated_number_message`. -/
def Tss2ResponseCode.get_associated_number_message : Tss2ResponseCode → String
  | Tss2ResponseCode.FormatOne rc =>
    if rc.parameter then
      "associated with parameter number " ++ toString rc.number
    else if rc.number ≤ 7 then
      "associated with handle number " ++ toString rc.number
    else
      "associated with session number " ++ toString (rc.number - 8)
  | _ => "no associated message"

/-- Embedding of the `Tss2ResponseCodeKind` enum.  The constructors follow
the source order; `Initialize` and `Type` carry a prime because those names
are not usable as plain identifiers here. -/
inductive Tss2ResponseCodeKind where
  | Success
  | TpmVendorSpecific
  | Initialize'
  | Failure
  | Sequence
  | Private
  | Hmac
  | Disabled
  | Exclusive
  | AuthType
  | AuthMissing
  | Policy
  | Pcr
  | PcrChanged
  | Upgrade
  | TooManyContexts
  | AuthUnavailable
  | Reboot
  | Unbalanced
  | CommandSize
  | CommandCode
  | AuthSize
  | AuthContext
  | NvRange
  | NvSize
  | NvLocked
  | NvAuthorization
  | NvUninitialized
  | NvSpace
  | NvDefined
  | BadContext
  | CpHash
  | Parent
  | NeedsTest
  | NoResult
  | Sensitive
  | Asymmetric
  | Attributes
  | Hash
  | Value
  | Hierarchy
  | KeySize
  | Mgf
  | Mode
  | Type'
  | Handle
  | Kdf
  | Range
  | AuthFail
  | Nonce
  | Pp
  | Scheme
  | Size
  | Symmetric
  | Tag
  | Selector
  | Insufficient
  | Signature
  | Key
  | PolicyFail
  | Integrity
  | Ticket
  | ReservedBits
  | BadAuth
  | Expired
  | PolicyCc
  | Binding
  | Curve
  | EccPoint
  | ContextGap
  | ObjectMemory
  | SessionMemory
  | Memory
  | SessionHandles
  | ObjectHandles
  | Locality
  | Yielded
  | Canceled
  | Testing
  | ReferenceH0
  | ReferenceH1
  | ReferenceH2
  | ReferenceH3
  | ReferenceH4
  | ReferenceH5
  | ReferenceH6
  | ReferenceS0
  | ReferenceS1
  | ReferenceS2
  | ReferenceS3
  | ReferenceS4
  | ReferenceS5
  | ReferenceS6
  | NvRate
  | Lockout
  | Retry
  | NvUnavailable
deriving DecidableEq

/-- The warning arm of `Tss2ResponseCode::kind` (Format-Zero, severity set):
the `match self.error_number()` table, arm for arm. -/
def formatZeroWarningKind (n : Nat) : Option Tss2ResponseCodeKind :=
  match n with
  | 0x001 => some Tss2ResponseCodeKind.ContextGap
  | 0x002 => some Tss2ResponseCodeKind.ObjectMemory
  | 0x003 => some Tss2ResponseCodeKind.SessionMemory
  | 0x004 => some Tss2ResponseCodeKind.Memory
  | 0x005 => some Tss2ResponseCodeKind.SessionHandles
  | 0x006 => some Tss2ResponseCodeKind.ObjectHandles
  | 0x007 => some Tss2ResponseCodeKind.Locality
  | 0x008 => some Tss2ResponseCodeKind.Yielded
  | 0x009 => some Tss2ResponseCodeKind.Canceled
  | 0x00A => some Tss2ResponseCodeKind.Testing
  | 0x010 => some Tss2ResponseCodeKind.ReferenceH0
  | 0x011 => some Tss2ResponseCodeKind.ReferenceH1
  | 0x012 => some Tss2ResponseCodeKind.ReferenceH2
  | 0x013 => some Tss2ResponseCodeKind.ReferenceH3
  | 0x014 => some Tss2ResponseCodeKind.ReferenceH4
  | 0x015 => some Tss2ResponseCodeKind.ReferenceH5
  | 0x016 => some Tss2ResponseCodeKind.ReferenceH6
  | 0x018 => some Tss2ResponseCodeKind.ReferenceS0
  | 0x019 => some Tss2ResponseCodeKind.ReferenceS1
  | 0x01A => some Tss2ResponseCodeKind.ReferenceS2
  | 0x01B => some Tss2ResponseCodeKind.ReferenceS3
  | 0x01C => some Tss2ResponseCodeKind.ReferenceS4
  | 0x01D => some Tss2ResponseCodeKind.ReferenceS5
  | 0x01E => some Tss2ResponseCodeKind.ReferenceS6
  | 0x020 => some Tss2ResponseCodeKind.NvRate
  | 0x021 => some Tss2ResponseCodeKind.Lockout
  | 0x022 => some Tss2ResponseCodeKind.Retry
  | 0x023 => some Tss2ResponseCodeKind.NvUnavailable
  | _ => none

/-- The error arm of `Tss2ResponseCode::kind` (Format-Zero, severity clear):
the `match self.error_number()` table, arm for arm. -/
def formatZeroErrorKind (n : Nat) : Option Tss2ResponseCodeKind :=
  match n with
  | 0x000 => some Tss2ResponseCodeKind.Initialize'
  | 0x001 => some Tss2ResponseCodeKind.Failure
  | 0x003 => some Tss2ResponseCodeKind.Sequence
  | 0x00B => some Tss2ResponseCodeKind.Private
  | 0x019 => some Tss2ResponseCodeKind.Hmac
  | 0x020 => some Tss2ResponseCodeKind.Disabled
  | 0x021 => some Tss2ResponseCodeKind.Exclusive
  | 0x024 => some Tss2ResponseCodeKind.AuthType
  | 0x025 => some Tss2ResponseCodeKind.AuthMissing
  | 0x026 => some Tss2ResponseCodeKind.Policy
  | 0x027 => some Tss2ResponseCodeKind.Pcr
  | 0x028 => some Tss2ResponseCodeKind.PcrChanged
  | 0x02D => some Tss2ResponseCodeKind.Upgrade
  | 0x02E => some Tss2ResponseCodeKind.TooManyContexts
  | 0x02F => some Tss2ResponseCodeKind.AuthUnavailable
  | 0x030 => some Tss2ResponseCodeKind.Reboot
  | 0x031 => some Tss2ResponseCodeKind.Unbalanced
  | 0x042 => some Tss2ResponseCodeKind.CommandSize
  | 0x043 => some Tss2ResponseCodeKind.CommandCode
  | 0x044 => some Tss2ResponseCodeKind.AuthSize
  | 0x045 => some Tss2ResponseCodeKind.AuthContext
  | 0x046 => some Tss2ResponseCodeKind.NvRange
  | 0x047 => some Tss2ResponseCodeKind.NvSize
  | 0x048 => some Tss2ResponseCodeKind.NvLocked
  | 0x049 => some Tss2ResponseCodeKind.NvAuthorization
  | 0x04A => some Tss2ResponseCodeKind.NvUninitialized
  | 0x04B => some Tss2ResponseCodeKind.NvSpace
  | 0x04C => some Tss2ResponseCodeKind.NvDefined
  | 0x050 => some Tss2ResponseCodeKind.BadContext
  | 0x051 => some Tss2ResponseCodeKind.CpHash
  | 0x052 => some Tss2ResponseCodeKind.Parent
  | 0x053 => some Tss2ResponseCodeKind.NeedsTest
  | 0x054 => some Tss2ResponseCodeKind.NoResult
  | 0x055 => some Tss2ResponseCodeKind.Sensitive
  | _ => none

/-- The Format-One arm of `Tss2ResponseCode::kind`: the
`match self.error_number()` table, arm for arm. -/
def formatOneKind (n : Nat) : Option Tss2ResponseCodeKind :=
  match n with
  | 0x001 => some Tss2ResponseCodeKind.Asymmetric
  | 0x002 => some Tss2ResponseCodeKind.Attributes
  | 0x003 => some Tss2ResponseCodeKind.Hash
  | 0x004 => some Tss2ResponseCodeKind.Value
  | 0x005 => some Tss2ResponseCodeKind.Hierarchy
  | 0x007 => some Tss2ResponseCodeKind.KeySize
  | 0x008 => some Tss2ResponseCodeKind.Mgf
  | 0x009 => some Tss2ResponseCodeKind.Mode
  | 0x00A => some Tss2ResponseCodeKind.Type'
  | 0x00B => some Tss2ResponseCodeKind.Handle
  | 0x00C => some Tss2ResponseCodeKind.Kdf
  | 0x00D => some Tss2ResponseCodeKind.Range
  | 0x00E => some Tss2ResponseCodeKind.AuthFail
  | 0x00F => some Tss2ResponseCodeKind.Nonce
  | 0x010 => some Tss2ResponseCodeKind.Pp
  | 0x012 => some Tss2ResponseCodeKind.Scheme
  | 0x015 => some Tss2ResponseCodeKind.Size
  | 0x016 => some Tss2ResponseCodeKind.Symmetric
  | 0x017 => some Tss2ResponseCodeKind.Tag
  | 0x018 => some Tss2ResponseCodeKind.Selector
  | 0x01A => some Tss2ResponseCodeKind.Insufficient
  | 0x01B => some Tss2ResponseCodeKind.Signature
  | 0x01C => some Tss2ResponseCodeKind.Key
  | 0x01D => some Tss2ResponseCodeKind.PolicyFail
  | 0x01F => some Tss2ResponseCodeKind.Integrity
  | 0x020 => some Tss2ResponseCodeKind.Ticket
  | 0x021 => some Tss2ResponseCodeKind.ReservedBits
  | 0x022 => some Tss2ResponseCodeKind.BadAuth
  | 0x023 => some Tss2ResponseCodeKind.Expired
  | 0x024 => some Tss2ResponseCodeKind.PolicyCc
  | 0x025 => some Tss2ResponseCodeKind.Binding
  | 0x026 => some Tss2ResponseCodeKind.Curve
  | 0x027 => some Tss2ResponseCodeKind.EccPoint
  | _ => none

/-- Embedding of `Tss2ResponseCode::kind`, with the three inline lookup
tables split out into the named functions above. -/
def Tss2ResponseCode.kind (c : Tss2ResponseCode) : Option Tss2ResponseCodeKind :=
  match c with
  | Tss2ResponseCode.Success => some Tss2ResponseCodeKind.Success
  | Tss2ResponseCode.FormatZero rc =>
    if rc.tcg_vendor_indicator then
      some Tss2ResponseCodeKind.TpmVendorSpecific
    else if c.is_warning then
      formatZeroWarningKind c.error_number
    else
      formatZeroErrorKind c.error_number
  | Tss2ResponseCode.FormatOne _ => formatOneKind c.error_number

/-- One arm of the `Display for Tss2ResponseCode` match: the string written
for a given kind, with the code value available for `error_number` and
`get_associated_number_message`, exactly as in the source. -/
def Tss2ResponseCode.displayKind (k : Tss2ResponseCodeKind) (c : Tss2ResponseCode) : String :=
  match k with
  | Tss2ResponseCodeKind.Success => "success"
  | Tss2ResponseCodeKind.TpmVendorSpecific => "vendor specific error: " ++ toString c.error_number
  | Tss2ResponseCodeKind.Initialize' => "TPM not initialized by TPM2_Startup or already initialized"
  | Tss2ResponseCodeKind.Failure => "commands not being accepted because of a TPM failure. NOTE: This may be returned by TPM2_GetTestResult() as the testResultparameter"
  | Tss2ResponseCodeKind.Sequence => "improper use of a sequence handle"
  | Tss2ResponseCodeKind.Private => "not currently used"
  | Tss2ResponseCodeKind.Hmac => "not currently used"
  | Tss2ResponseCodeKind.Disabled => "the command is disabled"
  | Tss2ResponseCodeKind.Exclusive => "command failed because audit sequence required exclusivity"
  | Tss2ResponseCodeKind.AuthType => "authorization handle is not correct for command"
  | Tss2ResponseCodeKind.AuthMissing => "command requires an authorization session for handle and it is not present"
  | Tss2ResponseCodeKind.Policy => "policy failure in math operation or an invalid authPolicy value"
  | Tss2ResponseCodeKind.Pcr => "PCR check fail"
  | Tss2ResponseCodeKind.PcrChanged => "PCR have changed since checked"
  | Tss2ResponseCodeKind.Upgrade => "for all commands other than TPM2_FieldUpgradeData(), this code indicates that the TPM is in field upgrade mode; for TPM2_FieldUpgradeData(), this code indicates that the TPM is not in field upgrade mode"
  | Tss2ResponseCodeKind.TooManyContexts => "context ID counter is at maximum"
  | Tss2ResponseCodeKind.AuthUnavailable => "authValue or authPolicy is not available for selected entity"
  | Tss2ResponseCodeKind.Reboot => "a _TPM_Init and Startup(CLEAR) is required before the TPM can resume operation"
  | Tss2ResponseCodeKind.Unbalanced => "the protection algorithms (hash and symmetric) are not reasonably balanced. The digest size of the hash must be larger than the key size of the symmetric algorithm"
  | Tss2ResponseCodeKind.CommandSize => "command commandSizevalue is inconsistent with contents of the command buffer; either the size is not the same as the octets loaded by the hardware interface layer or the value is not large enough to hold a command header"
  | Tss2ResponseCodeKind.CommandCode => "command code not supported"
  | Tss2ResponseCodeKind.AuthSize => "the value of authorizationSizeis out of range or the number of octets in the Authorization Area is greater than required"
  | Tss2ResponseCodeKind.AuthContext => "use of an authorization session with a context command or another command that cannot have an authorization session"
  | Tss2ResponseCodeKind.NvRange => "NV offset+size is out of range"
  | Tss2ResponseCodeKind.NvSize => "Requested allocation size is larger than allowed"
  | Tss2ResponseCodeKind.NvLocked => "NV access locked"
  | Tss2ResponseCodeKind.NvAuthorization => "NV access authorization fails in command actions (this failure does not affect lockout.action)"
  | Tss2ResponseCodeKind.NvUninitialized => "an NV Index is used before being initialized or the state saved by TPM2_Shutdown(STATE) could not be restored"
  | Tss2ResponseCodeKind.NvSpace => "insufficient space for NV allocation"
  | Tss2ResponseCodeKind.NvDefined => "NV Index or persistent object already defined"
  | Tss2ResponseCodeKind.BadContext => "context in TPM2_ContextLoad() is not valid"
  | Tss2ResponseCodeKind.CpHash => "cpHash value already set or not correct for use"
  | Tss2ResponseCodeKind.Parent => "handle for parent is not a valid parent"
  | Tss2ResponseCodeKind.NeedsTest => "some function needs testing."
  | Tss2ResponseCodeKind.NoResult => "returned when an internal function cannot process a request due to an unspecified problem. This code is usually related to invalid parameters that are not properly filtered by the input unmarshaling code."
  | Tss2ResponseCodeKind.Sensitive => "the sensitive area did not unmarshal correctly after decryption – this code is used in lieu of the other unmarshaling errors so that an attacker cannot determine where the unmarshaling error occurred"
  | Tss2ResponseCodeKind.ContextGap => "gap for context ID is too large"
  | Tss2ResponseCodeKind.ObjectMemory => "out of memory for object contexts"
  | Tss2ResponseCodeKind.SessionMemory => "out of memory for session contexts"
  | Tss2ResponseCodeKind.Memory => "out of shared object/session memory or need space for internal operations"
  | Tss2ResponseCodeKind.SessionHandles => "out of session handles – a session must be flushed before a new session may be created"
  | Tss2ResponseCodeKind.ObjectHandles => "out of object handles – the handle space for objects is depleted and a reboot is required. NOTE 1: This cannot occur on the reference implementation. NOTE 2: There is no reason why an implementation would implement a design that would delete handle space. Platform specifications are encouraged to forbid it."
  | Tss2ResponseCodeKind.Locality => "bad locality"
  | Tss2ResponseCodeKind.Yielded => "the TPM has suspended operation on the command; forward progress was made and the command may be retried. See TPM 2.0 Part 1, “Multi-tasking.” NOTE: This cannot occur on the reference implementation."
  | Tss2ResponseCodeKind.Canceled => "the command was canceled"
  | Tss2ResponseCodeKind.Testing => "TPM is performing self-tests"
  | Tss2ResponseCodeKind.ReferenceH0 => "the 1st handle in the handle area references a transient object or session that is not loaded"
  | Tss2ResponseCodeKind.ReferenceH1 => "the 2nd handle in the handle area references a transient object or session that is not loaded"
  | Tss2ResponseCodeKind.ReferenceH2 => "the 3rd handle in the handle area references a transient object or session that is not loaded"
  | Tss2ResponseCodeKind.ReferenceH3 => "the 4th handle in the handle area references a transient object or session that is not loaded"
  | Tss2ResponseCodeKind.ReferenceH4 => "the 5th handle in the handle area references a transient object or session that is not loaded"
  | Tss2ResponseCodeKind.ReferenceH5 => "the 6th handle in the handle area references a transient object or session that is not loaded"
  | Tss2ResponseCodeKind.ReferenceH6 => "the 7th handle in the handle area references a transient object or session that is not loaded"
  | Tss2ResponseCodeKind.ReferenceS0 => "the 1st authorization session handle references a session that is not loaded"
  | Tss2ResponseCodeKind.ReferenceS1 => "the 2nd authorization session handle references a session that is not loaded"
  | Tss2ResponseCodeKind.ReferenceS2 => "the 3rd authorization session handle references a session that is not loaded"
  | Tss2ResponseCodeKind.ReferenceS3 => "the 4th authorization session handle references a session that is not loaded"
  | Tss2ResponseCodeKind.ReferenceS4 => "the 5th session handle references a session that is not loaded"
  | Tss2ResponseCodeKind.ReferenceS5 => "the 6th session handle references a session that is not loaded"
  | Tss2ResponseCodeKind.ReferenceS6 => "the 7th authorization session handle references a session that is not loaded"
  | Tss2ResponseCodeKind.NvRate => "the TPM is rate-limiting accesses to prevent wearout of NV"
  | Tss2ResponseCodeKind.Lockout => "authorizations for objects subject to DA protection are not allowed at this time because the TPM is in DA lockout mode"
  | Tss2ResponseCodeKind.Retry => "the TPM was not able to start the command"
  | Tss2ResponseCodeKind.NvUnavailable => "the command may require writing of NV and NV is not current accessible"
  | Tss2ResponseCodeKind.Asymmetric => "asymmetric algorithm not supported or not correct (" ++ c.get_associated_number_message ++ ")"
  | Tss2ResponseCodeKind.Attributes => "inconsistent attributes (" ++ c.get_associated_number_message ++ ")"
  | Tss2ResponseCodeKind.Hash => "hash algorithm not supported or not appropriate (" ++ c.get_associated_number_message ++ ")"
  | Tss2ResponseCodeKind.Value => "value is out of range or is not correct for the context (" ++ c.get_associated_number_message ++ ")"
  | Tss2ResponseCodeKind.Hierarchy => "hierarchy is not enabled or is not correct for the use (" ++ c.get_associated_number_message ++ ")"
  | Tss2ResponseCodeKind.KeySize => "key size is not supported (" ++ c.get_associated_number_message ++ ")"
  | Tss2ResponseCodeKind.Mgf => "mask generation function not supported (" ++ c.get_associated_number_message ++ ")"
  | Tss2ResponseCodeKind.Mode => "mode of operation not supported (" ++ c.get_associated_number_message ++ ")"
  | Tss2ResponseCodeKind.Type' => "the type of the value is not appropriate for the use (" ++ c.get_associated_number_message ++ ")"
  | Tss2ResponseCodeKind.Handle => "the handle is not correct for the use (" ++ c.get_associated_number_message ++ ")"
  | Tss2ResponseCodeKind.Kdf => "unsupported key derivation function or function not appropriate for use (" ++ c.get_associated_number_message ++ ")"
  | Tss2ResponseCodeKind.Range => "value was out of allowed range. (" ++ c.get_associated_number_message ++ ")"
  | Tss2ResponseCodeKind.AuthFail => "the authorization HMAC check failed and DA counter incremented (" ++ c.get_associated_number_message ++ ")"
  | Tss2ResponseCodeKind.Nonce => "invalid nonce size or nonce value mismatch (" ++ c.get_associated_number_message ++ ")"
  | Tss2ResponseCodeKind.Pp => "authorization requires assertion of PP (" ++ c.get_associated_number_message ++ ")"
  | Tss2ResponseCodeKind.Scheme => "unsupported or incompatible scheme (" ++ c.get_associated_number_message ++ ")"
  | Tss2ResponseCodeKind.Size => "structure is the wrong size (" ++ c.get_associated_number_message ++ ")"
  | Tss2ResponseCodeKind.Symmetric => "unsupported symmetric algorithm or key size, or not appropriate for instance (" ++ c.get_associated_number_message ++ ")"
  | Tss2ResponseCodeKind.Tag => "incorrect structure tag (" ++ c.get_associated_number_message ++ ")"
  | Tss2ResponseCodeKind.Selector => "union selector is incorrect (" ++ c.get_associated_number_message ++ ")"
  | Tss2ResponseCodeKind.Insufficient => "the TPM was unable to unmarshal a value because there were not enough octets in the input buffer (" ++ c.get_associated_number_message ++ ")"
  | Tss2ResponseCodeKind.Signature => "the signature is not valid (" ++ c.get_associated_number_message ++ ")"
  | Tss2ResponseCodeKind.Key => "key fields are not compatible with the selected use (" ++ c.get_associated_number_message ++ ")"
  | Tss2ResponseCodeKind.PolicyFail => "a policy check failed (" ++ c.get_associated_number_message ++ ")"
  | Tss2ResponseCodeKind.Integrity => "integrity check failed (" ++ c.get_associated_number_message ++ ")"
  | Tss2ResponseCodeKind.Ticket => "invalid ticket  (" ++ c.get_associated_number_message ++ ")"
  | Tss2ResponseCodeKind.ReservedBits => "reserved bits not set to zero as required (" ++ c.get_associated_number_message ++ ")"
  | Tss2ResponseCodeKind.BadAuth => "authorization failure without DA implications (" ++ c.get_associated_number_message ++ ")"
  | Tss2ResponseCodeKind.Expired => "the policy has expired (" ++ c.get_associated_number_message ++ ")"
  | Tss2ResponseCodeKind.PolicyCc => "the command Code in the policy is not the command Code of the command or the command code in a policy command references a command that is not implemented (" ++ c.get_associated_number_message ++ ")"
  | Tss2ResponseCodeKind.Binding => "public and sensitive portions of an object are not cryptographically bound (" ++ c.get_associated_number_message ++ ")"
  | Tss2ResponseCodeKind.Curve => "curve not supported (" ++ c.get_associated_number_message ++ ")"
  | Tss2ResponseCodeKind.EccPoint => "point is not on the required curve (" ++ c.get_associated_number_message ++ ")"

/-- Embedding of `Display for Tss2ResponseCode`: the unrecognized guard,
then the matched arm for the (known-`some`) kind. -/
def Tss2ResponseCode.display (c : Tss2ResponseCode) : String :=
  match c.kind with
  | none => "response code not recognized"
  | some k => c.displayKind k

/-- Embedding of the `WrapperErrorKind` enum. -/
inductive WrapperErrorKind where
  | WrongParamSize
  | ParamsMissing
  | InconsistentParams
deriving DecidableEq

/-- Embedding of `Display for WrapperErrorKind`. -/
def WrapperErrorKind.display : WrapperErrorKind → String
  | WrapperErrorKind.WrongParamSize => "parameter provided is of the wrong size"
  | WrapperErrorKind.ParamsMissing => "some of the required parameters were not provided"
  | WrapperErrorKind.InconsistentParams => "the provided parameters have inconsistent values or variants"

/-- Embedding of the top-level `Error` enum. -/
inductive Error where
  | WrapperError (e : WrapperErrorKind)
  | Tss2Error (rc : Tss2ResponseCode)
deriving DecidableEq

/-- Embedding of `Error::from_tss_rc`. -/
def Error.from_tss_rc (rc : Nat) : Error :=
  Error.Tss2Error (Tss2ResponseCode.from_tss_rc rc)

/-- Embedding of `Error::local_error`. -/
def Error.local_error (kind : WrapperErrorKind) : Error :=
  Error.WrapperError kind

/-- Embedding of `Error::is_success` (`if let Tss2Error ... else false`). -/
def Error.is_success : Error → Bool
  | Error.Tss2Error tss2_rc => tss2_rc.is_success
  | Error.WrapperError _ => false

/-- Embedding of `Display for Error`. -/
def Error.display : Error → String
  | Error.WrapperError e => e.display
  | Error.Tss2Error e => e.display

theorem testBit_div_mod_one (x i : Nat) : Nat.testBit x i = true ↔ x / 2 ^ i % 2 = 1 := by
  simp [Nat.testBit_to_div_mod]

theorem testBit_div_mod_zero (x i : Nat) : Nat.testBit x i = false ↔ x / 2 ^ i % 2 = 0 := by
  simp only [Nat.testBit_to_div_mod, decide_eq_false_iff_not]
  omega

theorem display_of_kind_some (c : Tss2ResponseCode) (k : Tss2ResponseCodeKind)
    (h : c.kind = some k) : c.display = c.displayKind k := by
  unfold Tss2ResponseCode.display
  rw [h]

/-- C2: the raw value is 0 iff decoding yields `Success`, iff `is_success`
holds on the decoded value; and `Success` renders as "success". -/
theorem C2_success_iff (raw : Nat) (_h32 : raw < 2 ^ 32) :
    (raw = 0 ↔ Tss2ResponseCode.from_tss_rc raw = Tss2ResponseCode.Success)
    ∧ (raw = 0 ↔ (Tss2ResponseCode.from_tss_rc raw).is_success = true)
    ∧ Tss2ResponseCode.Success.display = "success" := by
  have h1 : raw = 0 ↔ Tss2ResponseCode.from_tss_rc raw = Tss2ResponseCode.Success := by
    constructor
    · intro h
      simp [Tss2ResponseCode.from_tss_rc, h]
    · intro h
      by_contra h0
      simp only [Tss2ResponseCode.from_tss_rc, if_neg h0] at h
      split at h <;> exact Tss2ResponseCode.noConfusion h
  refine ⟨h1, ?_, rfl⟩
  rw [h1]
  simp [Tss2ResponseCode.is_success]

/-- C2 witness at raw = 0. -/
theorem C2_success_iff_witness :
    (0 = 0 ↔ Tss2ResponseCode.from_tss_rc 0 = Tss2ResponseCode.Success)
    ∧ (0 = 0 ↔ (Tss2ResponseCode.from_tss_rc 0).is_success = true)
    ∧ Tss2ResponseCode.Success.display = "success" :=
  C2_success_iff 0 (by norm_num)

/-- C7: for nonzero raw codes, bit 7 alone decides Format-Zero versus
Format-One; decoded values keep their selector bit, and no code decodes as
both. -/
theorem C7_format_selector (raw : Nat) (h : raw ≠ 0) :
    (Nat.testBit raw 7 = false ↔
      Tss2ResponseCode.from_tss_rc raw
        = Tss2ResponseCode.FormatZero (FormatZeroResponseCode.mk raw))
    ∧ (Nat.testBit raw 7 = true ↔
      Tss2ResponseCode.from_tss_rc raw
        = Tss2ResponseCode.FormatOne (FormatOneResponseCode.mk raw))
    ∧ (∀ fz, Tss2ResponseCode.from_tss_rc raw = Tss2ResponseCode.FormatZero fz →
        fz.format_selector = false)
    ∧ (∀ fo, Tss2ResponseCode.from_tss_rc raw = Tss2ResponseCode.FormatOne fo →
        fo.format_selector = true)
    ∧ ∀ fz fo, ¬(Tss2ResponseCode.from_tss_rc raw = Tss2ResponseCode.FormatZero fz
        ∧ Tss2ResponseCode.from_tss_rc raw = Tss2ResponseCode.FormatOne fo) := by
  by_cases h7 : Nat.testBit raw 7 = true
  · have hdec : Tss2ResponseCode.from_tss_rc raw
        = Tss2ResponseCode.FormatOne (FormatOneResponseCode.mk raw) := by
      simp [Tss2ResponseCode.from_tss_rc, h, ResponseCode.format_selector, h7]
    rw [hdec]
    refine ⟨by simp [h7], by simp [h7], ?_, ?_, ?_⟩
    · intro fz hfz
      exact Tss2ResponseCode.noConfusion hfz
    · intro fo hfo
      cases hfo
      exact h7
    · intro fz fo hboth
      exact Tss2ResponseCode.noConfusion hboth.1
  · have h7f : Nat.testBit raw 7 = false := by simpa using h7
    have hdec : Tss2ResponseCode.from_tss_rc raw
        = Tss2ResponseCode.FormatZero (FormatZeroResponseCode.mk raw) := by
      simp [Tss2ResponseCode.from_tss_rc, h, ResponseCode.format_selector, h7f]
    rw [hdec]
    refine ⟨by simp [h7f], by simp [h7f], ?_, ?_, ?_⟩
    · intro fz hfz
      cases hfz
      exact h7f
    · intro fo hfo
      exact Tss2ResponseCode.noConfusion hfo
    · intro fz fo hboth
      exact Tss2ResponseCode.noConfusion hboth.2

/-- C7 witness at raw = 3 (Format-Zero) instantiated. -/
theorem C7_format_selector_witness :
    (Nat.testBit 3 7 = false ↔
      Tss2ResponseCode.from_tss_rc 3
        = Tss2ResponseCode.FormatZero (FormatZeroResponseCode.mk 3))
    ∧ (Nat.testBit 3 7 = true ↔
      Tss2ResponseCode.from_tss_rc 3
        = Tss2ResponseCode.FormatOne (FormatOneResponseCode.mk 3))
    ∧ (∀ fz, Tss2ResponseCode.from_tss_rc 3 = Tss2ResponseCode.FormatZero fz →
        fz.format_selector = false)
    ∧ (∀ fo, Tss2ResponseCode.from_tss_rc 3 = Tss2ResponseCode.FormatOne fo →
        fo.format_selector = true)
    ∧ ∀ fz fo, ¬(Tss2ResponseCode.from_tss_rc 3 = Tss2ResponseCode.FormatZero fz
        ∧ Tss2ResponseCode.from_tss_rc 3 = Tss2ResponseCode.FormatOne fo) :=
  C7_format_selector 3 (by norm_num)

/-- C10: a `Tss2Error` is successful iff its decoded code is `Success`; a
`WrapperError` is never successful. -/
theorem C10_error_is_success :
    (∀ c : Tss2ResponseCode,
      (Error.Tss2Error c).is_success = true ↔ c = Tss2ResponseCode.Success)
    ∧ ∀ k : WrapperErrorKind, (Error.WrapperError k).is_success = false := by
  constructor
  · intro c
    simp [Error.is_success, Tss2ResponseCode.is_success]
  · intro k
    rfl

/-- C10 witness at concrete arguments. -/
theorem C10_error_is_success_witness :
    ((Error.Tss2Error Tss2ResponseCode.Success).is_success = true
      ↔ Tss2ResponseCode.Success = Tss2ResponseCode.Success)
    ∧ (Error.WrapperError WrapperErrorKind.WrongParamSize).is_success = false :=
  ⟨C10_error_is_success.1 Tss2ResponseCode.Success,
    C10_error_is_success.2 WrapperErrorKind.WrongParamSize⟩

/-- C3: a nonzero Format-Zero code with the vendor-indicator bit set is
classified `TpmVendorSpecific` whatever the other fields are, and renders
as the vendor message built from the Format-Zero `error_number`. -/
theorem C3_vendor_specific (raw : Nat) (h : raw ≠ 0) (h7 : Nat.testBit raw 7 = false)
    (h10 : Nat.testBit raw 10 = true) :
    (Tss2ResponseCode.from_tss_rc raw).kind = some Tss2ResponseCodeKind.TpmVendorSpecific
    ∧ (Tss2ResponseCode.from_tss_rc raw).display =
        "vendor specific error: "
          ++ toString (FormatZeroResponseCode.error_number (FormatZeroResponseCode.mk raw)) := by
  have hfz : Tss2ResponseCode.from_tss_rc raw
      = Tss2ResponseCode.FormatZero (FormatZeroResponseCode.mk raw) := by
    simp [Tss2ResponseCode.from_tss_rc, h, ResponseCode.format_selector, h7]
  have hkind : (Tss2ResponseCode.FormatZero (FormatZeroResponseCode.mk raw)).kind
      = some Tss2ResponseCodeKind.TpmVendorSpecific := by
    simp [Tss2ResponseCode.kind, FormatZeroResponseCode.tcg_vendor_indicator, h10]
  rw [hfz]
  refine ⟨hkind, ?_⟩
  rw [display_of_kind_some _ _ hkind]
  rfl

/-- C3 witness at raw = 0x400. -/
theorem C3_vendor_specific_witness :
    (Tss2ResponseCode.from_tss_rc 0x400).kind = some Tss2ResponseCodeKind.TpmVendorSpecific
    ∧ (Tss2ResponseCode.from_tss_rc 0x400).display =
        "vendor specific error: "
          ++ toString (FormatZeroResponseCode.error_number (FormatZeroResponseCode.mk 0x400)) :=
  C3_vendor_specific 0x400 (by norm_num) (by decide) (by decide)

/-- C9: rendering is total with the `unwrap` guarded by the `none` check,
and the session-branch subtraction never underflows (the branch implies the
number field is at least 8). -/
theorem C9_display_total (raw : Nat) :
    ((Tss2ResponseCode.from_tss_rc raw).kind = none →
      (Tss2ResponseCode.from_tss_rc raw).display = "response code not recognized")
    ∧ (∀ k, (Tss2ResponseCode.from_tss_rc raw).kind = some k →
      (Tss2ResponseCode.from_tss_rc raw).display
        = (Tss2ResponseCode.from_tss_rc raw).displayKind k)
    ∧ ∀ fo, Tss2ResponseCode.from_tss_rc raw = Tss2ResponseCode.FormatOne fo →
        fo.parameter = false → ¬fo.number ≤ 7 →
        8 ≤ fo.number ∧ 8 + (fo.number - 8) = fo.number := by
  refine ⟨fun h => ?_, fun k h => display_of_kind_some _ _ h, fun fo _ _ h7 => ?_⟩
  · unfold Tss2ResponseCode.display
    rw [h]
  · omega

/-- C9 witness at raw = 0x99B (Format-One, session branch). -/
theorem C9_display_total_witness :
    8 ≤ (FormatOneResponseCode.mk 0x99B).number
    ∧ 8 + ((FormatOneResponseCode.mk 0x99B).number - 8) = (FormatOneResponseCode.mk 0x99B).number :=
  (C9_display_total 0x99B).2.2 (FormatOneResponseCode.mk 0x99B) (by decide) (by decide) (by decide)

/-- The associated-number phrase as the specification words it: parameter
bit first, then the handle range `number <= 7`, else the session branch
with `number - 8`. -/
def assocNumberPhraseSpec (p : Bool) (n : Nat) : String :=
  if p then
    "associated with parameter number " ++ toString n
  else if n ≤ 7 then
    "associated with handle number " ++ toString n
  else
    "associated with session number " ++ toString (n - 8)

/-- The kinds that the Format-One table never produces: `Success`,
`TpmVendorSpecific` and every Format-Zero error or warning kind. -/
def nonFormatOneKinds : List Tss2ResponseCodeKind :=
  [Tss2ResponseCodeKind.Success,
   Tss2ResponseCodeKind.TpmVendorSpecific,
   Tss2ResponseCodeKind.Initialize',
   Tss2ResponseCodeKind.Failure,
   Tss2ResponseCodeKind.Sequence,
   Tss2ResponseCodeKind.Private,
   Tss2ResponseCodeKind.Hmac,
   Tss2ResponseCodeKind.Disabled,
   Tss2ResponseCodeKind.Exclusive,
   Tss2ResponseCodeKind.AuthType,
   Tss2ResponseCodeKind.AuthMissing,
   Tss2ResponseCodeKind.Policy,
   Tss2ResponseCodeKind.Pcr,
   Tss2ResponseCodeKind.PcrChanged,
   Tss2ResponseCodeKind.Upgrade,
   Tss2ResponseCodeKind.TooManyContexts,
   Tss2ResponseCodeKind.AuthUnavailable,
   Tss2ResponseCodeKind.Reboot,
   Tss2ResponseCodeKind.Unbalanced,
   Tss2ResponseCodeKind.CommandSize,
   Tss2ResponseCodeKind.CommandCode,
   Tss2ResponseCodeKind.AuthSize,
   Tss2ResponseCodeKind.AuthContext,
   Tss2ResponseCodeKind.NvRange,
   Tss2ResponseCodeKind.NvSize,
   Tss2ResponseCodeKind.NvLocked,
   Tss2ResponseCodeKind.NvAuthorization,
   Tss2ResponseCodeKind.NvUninitialized,
   Tss2ResponseCodeKind.NvSpace,
   Tss2ResponseCodeKind.NvDefined,
   Tss2ResponseCodeKind.BadContext,
   Tss2ResponseCodeKind.CpHash,
   Tss2ResponseCodeKind.Parent,
   Tss2ResponseCodeKind.NeedsTest,
   Tss2ResponseCodeKind.NoResult,
   Tss2ResponseCodeKind.Sensitive,
   Tss2ResponseCodeKind.ContextGap,
   Tss2ResponseCodeKind.ObjectMemory,
   Tss2ResponseCodeKind.SessionMemory,
   Tss2ResponseCodeKind.Memory,
   Tss2ResponseCodeKind.SessionHandles,
   Tss2ResponseCodeKind.ObjectHandles,
   Tss2ResponseCodeKind.Locality,
   Tss2ResponseCodeKind.Yielded,
   Tss2ResponseCodeKind.Canceled,
   Tss2ResponseCodeKind.Testing,
   Tss2ResponseCodeKind.ReferenceH0,
   Tss2ResponseCodeKind.ReferenceH1,
   Tss2ResponseCodeKind.ReferenceH2,
   Tss2ResponseCodeKind.ReferenceH3,
   Tss2ResponseCodeKind.ReferenceH4,
   Tss2ResponseCodeKind.ReferenceH5,
   Tss2ResponseCodeKind.ReferenceH6,
   Tss2ResponseCodeKind.ReferenceS0,
   Tss2ResponseCodeKind.ReferenceS1,
   Tss2ResponseCodeKind.ReferenceS2,
   Tss2ResponseCodeKind.ReferenceS3,
   Tss2ResponseCodeKind.ReferenceS4,
   Tss2ResponseCodeKind.ReferenceS5,
   Tss2ResponseCodeKind.ReferenceS6,
   Tss2ResponseCodeKind.NvRate,
   Tss2ResponseCodeKind.Lockout,
   Tss2ResponseCodeKind.Retry,
   Tss2ResponseCodeKind.NvUnavailable]

theorem formatOneKind_not_foreign :
    ∀ n, n < 2 ^ 6 → ∀ k ∈ nonFormatOneKinds, formatOneKind n ≠ some k := by
  decide

/-- C1: the associated-number phrase of a Format-One code follows the
three-way rule word for word, with the stated values at `number = 7` and
`number = 8`, and every recognized Format-One code renders with the phrase
embedded in its message. -/
theorem C1_assoc_number (fo : FormatOneResponseCode) :
    (Tss2ResponseCode.FormatOne fo).get_associated_number_message
      = assocNumberPhraseSpec fo.parameter fo.number
    ∧ (fo.parameter = false → fo.number = 7 →
      (Tss2ResponseCode.FormatOne fo).get_associated_number_message
        = "associated with handle number 7")
    ∧ (fo.parameter = false → fo.number = 8 →
      (Tss2ResponseCode.FormatOne fo).get_associated_number_message
        = "associated with session number 0")
    ∧ ∀ k, (Tss2ResponseCode.FormatOne fo).kind = some k →
      ∃ pre, (Tss2ResponseCode.FormatOne fo).display
        = pre ++ (Tss2ResponseCode.FormatOne fo).get_associated_number_message ++ ")" := by
  refine ⟨rfl, fun hp h7 => ?_, fun hp h8 => ?_, fun k hk => ?_⟩
  · simp [Tss2ResponseCode.get_associated_number_message, hp, h7]
    decide
  · simp [Tss2ResponseCode.get_associated_number_message, hp, h8]
    decide
  · rw [display_of_kind_some _ _ hk]
    have hb : fo.error_number < 2 ^ 6 := Nat.mod_lt _ (by norm_num)
    have hk' : formatOneKind fo.error_number = some k := hk
    cases k <;>
      first
        | exact ⟨_, rfl⟩
        | exact absurd hk' (formatOneKind_not_foreign _ hb _ (by decide))

/-- C1 witness: concrete Format-One codes for the handle-7, session-0 and
embedding cases. -/
theorem C1_assoc_number_witness :
    (Tss2ResponseCode.FormatOne (FormatOneResponseCode.mk 0x700)).get_associated_number_message
      = "associated with handle number 7"
    ∧ (Tss2ResponseCode.FormatOne (FormatOneResponseCode.mk 0x800)).get_associated_number_message
      = "associated with session number 0"
    ∧ ∃ pre, (Tss2ResponseCode.FormatOne (FormatOneResponseCode.mk 0x99B)).display
      = pre ++ (Tss2ResponseCode.FormatOne (FormatOneResponseCode.mk 0x99B)).get_associated_number_message ++ ")" :=
  ⟨(C1_assoc_number (FormatOneResponseCode.mk 0x700)).2.1 (by decide) (by decide),
   (C1_assoc_number (FormatOneResponseCode.mk 0x800)).2.2.1 (by decide) (by decide),
   (C1_assoc_number (FormatOneResponseCode.mk 0x99B)).2.2.2
     Tss2ResponseCodeKind.Signature (by decide)⟩

/-- The error numbers matched by the Format-Zero warning table. -/
def warningNumbers : List Nat :=
  [0x001, 0x002, 0x003, 0x004, 0x005, 0x006, 0x007, 0x008, 0x009, 0x00A,
   0x010, 0x011, 0x012, 0x013, 0x014, 0x015, 0x016,
   0x018, 0x019, 0x01A, 0x01B, 0x01C, 0x01D, 0x01E,
   0x020, 0x021, 0x022, 0x023]

/-- The error numbers matched by the Format-Zero error table. -/
def formatZeroErrorNumbers : List Nat :=
  [0x000, 0x001, 0x003, 0x00B, 0x019, 0x020, 0x021, 0x024, 0x025, 0x026,
   0x027, 0x028, 0x02D, 0x02E, 0x02F, 0x030, 0x031,
   0x042, 0x043, 0x044, 0x045, 0x046, 0x047, 0x048, 0x049, 0x04A, 0x04B,
   0x04C, 0x050, 0x051, 0x052, 0x053, 0x054, 0x055]

/-- The error numbers matched by the Format-One table. -/
def formatOneNumbers : List Nat :=
  [0x001, 0x002, 0x003, 0x004, 0x005, 0x007, 0x008, 0x009, 0x00A, 0x00B,
   0x00C, 0x00D, 0x00E, 0x00F, 0x010, 0x012, 0x015, 0x016, 0x017, 0x018,
   0x01A, 0x01B, 0x01C, 0x01D, 0x01F, 0x020, 0x021, 0x022, 0x023, 0x024,
   0x025, 0x026, 0x027]

theorem formatZeroWarningKind_not_mem :
    ∀ n, n < 2 ^ 7 → n ∉ warningNumbers → formatZeroWarningKind n = none := by
  decide

theorem formatZeroErrorKind_not_mem :
    ∀ n, n < 2 ^ 7 → n ∉ formatZeroErrorNumbers → formatZeroErrorKind n = none := by
  decide

theorem formatOneKind_not_mem :
    ∀ n, n < 2 ^ 6 → n ∉ formatOneNumbers → formatOneKind n = none := by
  decide

/-- C4: an error number absent from the applicable table classifies as
`none`, whatever the remaining bits are; and an unrecognized code renders
as the fixed fallback string and is never `Success` or a named kind. -/
theorem C4_unrecognized (raw : Nat) (h : raw ≠ 0) :
    (Nat.testBit raw 7 = false → Nat.testBit raw 10 = false → Nat.testBit raw 11 = true →
      raw % 2 ^ 7 ∉ warningNumbers → (Tss2ResponseCode.from_tss_rc raw).kind = none)
    ∧ (Nat.testBit raw 7 = false → Nat.testBit raw 10 = false → Nat.testBit raw 11 = false →
      raw % 2 ^ 7 ∉ formatZeroErrorNumbers → (Tss2ResponseCode.from_tss_rc raw).kind = none)
    ∧ (Nat.testBit raw 7 = true → raw % 2 ^ 6 ∉ formatOneNumbers →
      (Tss2ResponseCode.from_tss_rc raw).kind = none)
    ∧ ((Tss2ResponseCode.from_tss_rc raw).kind = none →
      (Tss2ResponseCode.from_tss_rc raw).display = "response code not recognized"
      ∧ Tss2ResponseCode.from_tss_rc raw ≠ Tss2ResponseCode.Success
      ∧ ∀ k, (Tss2ResponseCode.from_tss_rc raw).kind ≠ some k) := by
  refine ⟨fun h7 h10 h11 hm => ?_, fun h7 h10 h11 hm => ?_, fun h7 hm => ?_, fun hnone => ?_⟩
  · have hfz : Tss2ResponseCode.from_tss_rc raw
        = Tss2ResponseCode.FormatZero (FormatZeroResponseCode.mk raw) := by
      simp [Tss2ResponseCode.from_tss_rc, h, ResponseCode.format_selector, h7]
    rw [hfz]
    show (if (FormatZeroResponseCode.mk raw).tcg_vendor_indicator then
        some Tss2ResponseCodeKind.TpmVendorSpecific
      else if (Tss2ResponseCode.FormatZero (FormatZeroResponseCode.mk raw)).is_warning then
        formatZeroWarningKind (Tss2ResponseCode.FormatZero (FormatZeroResponseCode.mk raw)).error_number
      else
        formatZeroErrorKind (Tss2ResponseCode.FormatZero (FormatZeroResponseCode.mk raw)).error_number)
      = none
    simp only [FormatZeroResponseCode.tcg_vendor_indicator, h10,
      Tss2ResponseCode.is_warning, FormatZeroResponseCode.severity, h11,
      Tss2ResponseCode.error_number, FormatZeroResponseCode.error_number,
      Bool.false_eq_true, if_false, if_true, ite_true, ite_false]
    exact formatZeroWarningKind_not_mem _ (Nat.mod_lt _ (by norm_num)) hm
  · have hfz : Tss2ResponseCode.from_tss_rc raw
        = Tss2ResponseCode.FormatZero (FormatZeroResponseCode.mk raw) := by
      simp [Tss2ResponseCode.from_tss_rc, h, ResponseCode.format_selector, h7]
    rw [hfz]
    show (if (FormatZeroResponseCode.mk raw).tcg_vendor_indicator then
        some Tss2ResponseCodeKind.TpmVendorSpecific
      else if (Tss2ResponseCode.FormatZero (FormatZeroResponseCode.mk raw)).is_warning then
        formatZeroWarningKind (Tss2ResponseCode.FormatZero (FormatZeroResponseCode.mk raw)).error_number
      else
        formatZeroErrorKind (Tss2ResponseCode.FormatZero (FormatZeroResponseCode.mk raw)).error_number)
      = none
    simp only [FormatZeroResponseCode.tcg_vendor_indicator, h10,
      Tss2ResponseCode.is_warning, FormatZeroResponseCode.severity, h11,
      Tss2ResponseCode.error_number, FormatZeroResponseCode.error_number,
      Bool.false_eq_true, if_false, if_true, ite_true, ite_false]
    exact formatZeroErrorKind_not_mem _ (Nat.mod_lt _ (by norm_num)) hm
  · have hfo : Tss2ResponseCode.from_tss_rc raw
        = Tss2ResponseCode.FormatOne (FormatOneResponseCode.mk raw) := by
      simp [Tss2ResponseCode.from_tss_rc, h, ResponseCode.format_selector, h7]
    rw [hfo]
    show formatOneKind (Tss2ResponseCode.FormatOne (FormatOneResponseCode.mk raw)).error_number = none
    exact formatOneKind_not_mem _ (Nat.mod_lt _ (by norm_num)) hm
  · refine ⟨?_, ?_, fun k hk => by rw [hnone] at hk; exact Option.noConfusion hk⟩
    · unfold Tss2ResponseCode.display
      rw [hnone]
    · intro hsucc
      rw [hsucc] at hnone
      exact Option.noConfusion hnone

/-- C4 witness: raw codes with unmatched error numbers in each namespace
(0x87F warning, 0x7F error, 0xBF Format-One). -/
theorem C4_unrecognized_witness :
    (Tss2ResponseCode.from_tss_rc 0x87F).kind = none
    ∧ (Tss2ResponseCode.from_tss_rc 0x07F).kind = none
    ∧ (Tss2ResponseCode.from_tss_rc 0x0BF).kind = none
    ∧ (Tss2ResponseCode.from_tss_rc 0x87F).display = "response code not recognized"
    ∧ Tss2ResponseCode.from_tss_rc 0x87F ≠ Tss2ResponseCode.Success := by
  have h1 := (C4_unrecognized 0x87F (by norm_num)).1 (by decide) (by decide) (by decide) (by decide)
  have h2 := (C4_unrecognized 0x07F (by norm_num)).2.1 (by decide) (by decide) (by decide) (by decide)
  have h3 := (C4_unrecognized 0x0BF (by norm_num)).2.2.1 (by decide) (by decide)
  have h4 := (C4_unrecognized 0x87F (by norm_num)).2.2.2 h1
  exact ⟨h1, h2, h3, h4.1, h4.2.1⟩

/-- C5 counterexample: over all 128 possible Format-Zero error numbers with
severity set and vendor clear, the number of recognized warnings is 28, not
32 as claimed. -/
theorem C5_warning_table_count_ne_32 :
    ((List.range (2 ^ 7)).filter
      (fun n => ((Tss2ResponseCode.from_tss_rc (2 ^ 11 + n)).kind).isSome)).length = 28
    ∧ ((List.range (2 ^ 7)).filter
      (fun n => ((Tss2ResponseCode.from_tss_rc (2 ^ 11 + n)).kind).isSome)).length ≠ 32 := by
  constructor
  · decide
  · decide

/-- C5 amended: the Format-Zero warning table has exactly 28 entries, both
as seen through full decoding and directly on the warning table. -/
theorem C5_warning_table_count :
    ((List.range (2 ^ 7)).filter
      (fun n => ((Tss2ResponseCode.from_tss_rc (2 ^ 11 + n)).kind).isSome)).length = 28
    ∧ ((List.range (2 ^ 7)).filter (fun n => (formatZeroWarningKind n).isSome)).length = 28 := by
  constructor
  · decide
  · decide

/-- The named Format-Zero kinds: all error-table and warning-table kinds,
excluding `Success` and `TpmVendorSpecific`. -/
def formatZeroNamedKinds : List Tss2ResponseCodeKind :=
  [Tss2ResponseCodeKind.Initialize',
   Tss2ResponseCodeKind.Failure,
   Tss2ResponseCodeKind.Sequence,
   Tss2ResponseCodeKind.Private,
   Tss2ResponseCodeKind.Hmac,
   Tss2ResponseCodeKind.Disabled,
   Tss2ResponseCodeKind.Exclusive,
   Tss2ResponseCodeKind.AuthType,
   Tss2ResponseCodeKind.AuthMissing,
   Tss2ResponseCodeKind.Policy,
   Tss2ResponseCodeKind.Pcr,
   Tss2ResponseCodeKind.PcrChanged,
   Tss2ResponseCodeKind.Upgrade,
   Tss2ResponseCodeKind.TooManyContexts,
   Tss2ResponseCodeKind.AuthUnavailable,
   Tss2ResponseCodeKind.Reboot,
   Tss2ResponseCodeKind.Unbalanced,
   Tss2ResponseCodeKind.CommandSize,
   Tss2ResponseCodeKind.CommandCode,
   Tss2ResponseCodeKind.AuthSize,
   Tss2ResponseCodeKind.AuthContext,
   Tss2ResponseCodeKind.NvRange,
   Tss2ResponseCodeKind.NvSize,
   Tss2ResponseCodeKind.NvLocked,
   Tss2ResponseCodeKind.NvAuthorization,
   Tss2ResponseCodeKind.NvUninitialized,
   Tss2ResponseCodeKind.NvSpace,
   Tss2ResponseCodeKind.NvDefined,
   Tss2ResponseCodeKind.BadContext,
   Tss2ResponseCodeKind.CpHash,
   Tss2ResponseCodeKind.Parent,
   Tss2ResponseCodeKind.NeedsTest,
   Tss2ResponseCodeKind.NoResult,
   Tss2ResponseCodeKind.Sensitive,
   Tss2ResponseCodeKind.ContextGap,
   Tss2ResponseCodeKind.ObjectMemory,
   Tss2ResponseCodeKind.SessionMemory,
   Tss2ResponseCodeKind.Memory,
   Tss2ResponseCodeKind.SessionHandles,
   Tss2ResponseCodeKind.ObjectHandles,
   Tss2ResponseCodeKind.Locality,
   Tss2ResponseCodeKind.Yielded,
   Tss2ResponseCodeKind.Canceled,
   Tss2ResponseCodeKind.Testing,
   Tss2ResponseCodeKind.ReferenceH0,
   Tss2ResponseCodeKind.ReferenceH1,
   Tss2ResponseCodeKind.ReferenceH2,
   Tss2ResponseCodeKind.ReferenceH3,
   Tss2ResponseCodeKind.ReferenceH4,
   Tss2ResponseCodeKind.ReferenceH5,
   Tss2ResponseCodeKind.ReferenceH6,
   Tss2ResponseCodeKind.ReferenceS0,
   Tss2ResponseCodeKind.ReferenceS1,
   Tss2ResponseCodeKind.ReferenceS2,
   Tss2ResponseCodeKind.ReferenceS3,
   Tss2ResponseCodeKind.ReferenceS4,
   Tss2ResponseCodeKind.ReferenceS5,
   Tss2ResponseCodeKind.ReferenceS6,
   Tss2ResponseCodeKind.NvRate,
   Tss2ResponseCodeKind.Lockout,
   Tss2ResponseCodeKind.Retry,
   Tss2ResponseCodeKind.NvUnavailable]

/-- C6 counterexample: the decoded codes 0x00B (`Private`) and 0x019
(`Hmac`) have distinct Format-Zero kinds but render to the same string. -/
theorem C6_private_hmac_collision :
    (Tss2ResponseCode.from_tss_rc 0x00B).kind = some Tss2ResponseCodeKind.Private
    ∧ (Tss2ResponseCode.from_tss_rc 0x019).kind = some Tss2ResponseCodeKind.Hmac
    ∧ Tss2ResponseCodeKind.Private ≠ Tss2ResponseCodeKind.Hmac
    ∧ (Tss2ResponseCode.from_tss_rc 0x00B).display
      = (Tss2ResponseCode.from_tss_rc 0x019).display := by
  refine ⟨by decide, by decide, by decide, by decide⟩

/-- C6 amended: apart from `Private` and `Hmac`, which both render
"not currently used", the named Format-Zero kinds all render to distinct
sentences, and those sentences do not depend on the code value. -/
theorem C6_renderer_injective :
    ((formatZeroNamedKinds.erase Tss2ResponseCodeKind.Hmac).map
      (fun k => Tss2ResponseCode.displayKind k
        (Tss2ResponseCode.FormatZero (FormatZeroResponseCode.mk 0)))).Nodup
    ∧ Tss2ResponseCode.displayKind Tss2ResponseCodeKind.Private
        (Tss2ResponseCode.FormatZero (FormatZeroResponseCode.mk 0))
      = Tss2ResponseCode.displayKind Tss2ResponseCodeKind.Hmac
        (Tss2ResponseCode.FormatZero (FormatZeroResponseCode.mk 0))
    ∧ ∀ k ∈ formatZeroNamedKinds, ∀ c,
        Tss2ResponseCode.displayKind k c
          = Tss2ResponseCode.displayKind k
            (Tss2ResponseCode.FormatZero (FormatZeroResponseCode.mk 0)) := by
  refine ⟨by decide, rfl, ?_⟩
  intro k hk c
  fin_cases hk <;> rfl

/-- C6 witness: the kind-sentence independence at a concrete kind and code. -/
theorem C6_renderer_injective_witness :
    Tss2ResponseCode.displayKind Tss2ResponseCodeKind.ContextGap
      (Tss2ResponseCode.FormatOne (FormatOneResponseCode.mk 0))
    = Tss2ResponseCode.displayKind Tss2ResponseCodeKind.ContextGap
      (Tss2ResponseCode.FormatZero (FormatZeroResponseCode.mk 0)) :=
  C6_renderer_injective.2.2 Tss2ResponseCodeKind.ContextGap (by decide)
    (Tss2ResponseCode.FormatOne (FormatOneResponseCode.mk 0))

/-- Construction of a raw Format-Zero code from field values at the bit
positions of the layout table (selector bit 7 left clear). -/
def encodeFormatZero (e : Nat) (v vi s : Bool) : Nat :=
  e + 2 ^ 8 * v.toNat + 2 ^ 10 * vi.toNat + 2 ^ 11 * s.toNat

/-- Construction of a raw Format-One code from field values at the bit
positions of the layout table (selector bit 7 set). -/
def encodeFormatOne (e : Nat) (p : Bool) (n : Nat) : Nat :=
  e + 2 ^ 6 * p.toNat + 2 ^ 7 + 2 ^ 8 * n

/-- C8 counterexample: the all-zero Format-Zero field assignment encodes to
raw 0, which decodes to `Success` rather than to a Format-Zero view. -/
theorem C8_roundtrip_zero_corner :
    Tss2ResponseCode.from_tss_rc (encodeFormatZero 0 false false false)
      = Tss2ResponseCode.Success
    ∧ Tss2ResponseCode.from_tss_rc (encodeFormatZero 0 false false false)
      ≠ Tss2ResponseCode.FormatZero
        (FormatZeroResponseCode.mk (encodeFormatZero 0 false false false)) := by
  refine ⟨rfl, by decide⟩

/-- C8 amended: the bit accessors recover every in-range field assignment
from the constructed raw code, and decoding returns the matching variant
wrapping that raw code — for Format-Zero provided the raw code is nonzero
(the all-zero assignment decodes to `Success`), for Format-One always. -/
theorem C8_roundtrip :
    (∀ e v vi s, e < 2 ^ 7 →
      (FormatZeroResponseCode.mk (encodeFormatZero e v vi s)).error_number = e
      ∧ (FormatZeroResponseCode.mk (encodeFormatZero e v vi s)).version = v
      ∧ (FormatZeroResponseCode.mk (encodeFormatZero e v vi s)).tcg_vendor_indicator = vi
      ∧ (FormatZeroResponseCode.mk (encodeFormatZero e v vi s)).severity = s
      ∧ (FormatZeroResponseCode.mk (encodeFormatZero e v vi s)).format_selector = false
      ∧ (encodeFormatZero e v vi s ≠ 0 →
        Tss2ResponseCode.from_tss_rc (encodeFormatZero e v vi s)
          = Tss2ResponseCode.FormatZero
            (FormatZeroResponseCode.mk (encodeFormatZero e v vi s))))
    ∧ ∀ e p n, e < 2 ^ 6 → n < 2 ^ 4 →
      (FormatOneResponseCode.mk (encodeFormatOne e p n)).error_number = e
      ∧ (FormatOneResponseCode.mk (encodeFormatOne e p n)).parameter = p
      ∧ (FormatOneResponseCode.mk (encodeFormatOne e p n)).number = n
      ∧ (FormatOneResponseCode.mk (encodeFormatOne e p n)).format_selector = true
      ∧ Tss2ResponseCode.from_tss_rc (encodeFormatOne e p n)
          = Tss2ResponseCode.FormatOne
            (FormatOneResponseCode.mk (encodeFormatOne e p n)) := by
  constructor
  · intro e v vi s he
    have h7 : Nat.testBit (encodeFormatZero e v vi s) 7 = false := by
      rw [testBit_div_mod_zero]
      unfold encodeFormatZero
      rcases v <;> rcases vi <;> rcases s <;> simp [Bool.toNat] <;> omega
    refine ⟨?_, ?_, ?_, ?_, h7, fun hne => ?_⟩
    · show encodeFormatZero e v vi s % 2 ^ 7 = e
      unfold encodeFormatZero
      rcases v <;> rcases vi <;> rcases s <;> simp [Bool.toNat] <;> omega
    · show Nat.testBit (encodeFormatZero e v vi s) 8 = v
      unfold encodeFormatZero
      rcases v <;> [rw [testBit_div_mod_zero]; rw [testBit_div_mod_one]] <;>
        rcases vi <;> rcases s <;> simp [Bool.toNat] <;> omega
    · show Nat.testBit (encodeFormatZero e v vi s) 10 = vi
      unfold encodeFormatZero
      rcases vi <;> [rw [testBit_div_mod_zero]; rw [testBit_div_mod_one]] <;>
        rcases v <;> rcases s <;> simp [Bool.toNat] <;> omega
    · show Nat.testBit (encodeFormatZero e v vi s) 11 = s
      unfold encodeFormatZero
      rcases s <;> [rw [testBit_div_mod_zero]; rw [testBit_div_mod_one]] <;>
        rcases v <;> rcases vi <;> simp [Bool.toNat] <;> omega
    · simp [Tss2ResponseCode.from_tss_rc, hne, ResponseCode.format_selector, h7]
  · intro e p n he hn
    have hne : encodeFormatOne e p n ≠ 0 := by
      unfold encodeFormatOne
      rcases p <;> simp [Bool.toNat]
    have h7 : Nat.testBit (encodeFormatOne e p n) 7 = true := by
      rw [testBit_div_mod_one]
      unfold encodeFormatOne
      rcases p <;> simp [Bool.toNat] <;> omega
    refine ⟨?_, ?_, ?_, h7, ?_⟩
    · show encodeFormatOne e p n % 2 ^ 6 = e
      unfold encodeFormatOne
      rcases p <;> simp [Bool.toNat] <;> omega
    · show Nat.testBit (encodeFormatOne e p n) 6 = p
      unfold encodeFormatOne
      rcases p <;> [rw [testBit_div_mod_zero]; rw [testBit_div_mod_one]] <;>
        simp [Bool.toNat] <;> omega
    · show encodeFormatOne e p n / 2 ^ 8 % 2 ^ 4 = n
      unfold encodeFormatOne
      rcases p <;> simp [Bool.toNat] <;> omega
    · simp [Tss2ResponseCode.from_tss_rc, hne, ResponseCode.format_selector, h7]

/-- C8 witness: the round-trip at concrete field assignments. -/
theorem C8_roundtrip_witness :
    (FormatZeroResponseCode.mk (encodeFormatZero 3 true false true)).error_number = 3
    ∧ (FormatZeroResponseCode.mk (encodeFormatZero 3 true false true)).version = true
    ∧ (FormatZeroResponseCode.mk (encodeFormatZero 3 true false true)).tcg_vendor_indicator = false
    ∧ (FormatZeroResponseCode.mk (encodeFormatZero 3 true false true)).severity = true
    ∧ (FormatOneResponseCode.mk (encodeFormatOne 0x1B false 9)).error_number = 0x1B
    ∧ (FormatOneResponseCode.mk (encodeFormatOne 0x1B false 9)).parameter = false
    ∧ (FormatOneResponseCode.mk (encodeFormatOne 0x1B false 9)).number = 9
    ∧ Tss2ResponseCode.from_tss_rc (encodeFormatOne 0x1B false 9)
        = Tss2ResponseCode.FormatOne (FormatOneResponseCode.mk (encodeFormatOne 0x1B false 9)) := by
  have h0 := C8_roundtrip.1 3 true false true (by norm_num)
  have h1 := C8_roundtrip.2 0x1B false 9 (by norm_num) (by norm_num)
  exact ⟨h0.1, h0.2.1, h0.2.2.1, h0.2.2.2.1, h1.1, h1.2.1, h1.2.2.1, h1.2.2.2.2⟩
